import Mathlib

/-!
Verification of the AI interview orchestration engine
(`backend/app` of the repository) against its natural-language
specification.

The development shallow-embeds the Python source into Lean:

* pure helpers (`check_time_status`, `evaluate_answer_instant`,
  `calculate_round_score`, the gaze state machine, the model-router
  fallback loop, the code-evaluation mapping) become Lean functions over
  `ℚ`, `String` and lists;
* Python floats are modelled by `ℚ` (the arithmetic of the scores is
  exact decimal arithmetic at the scale used by the program);
* `round(x, 1)` is modelled by `roundQ1` (round half to even, Python's
  rounding mode);
* Python string operations (`.lower()`, `.split()`, `.split(".")`,
  `.strip()`, substring `in`) are modelled by executable functions on
  `List Char` so that every theorem can be evaluated on concrete inputs;
* the external embedding model enters only through the cosine value it
  produces, so evaluators take that cosine as a `ℚ` parameter;
* LLM calls are modelled by their outcome (returned text or a raised
  error), passed in as a parameter.
-/

namespace Interview

/-! ## String helpers (Python semantics on `List Char`) -/

/-- Python `str.lower()` on a character list (ASCII case folding,
which is all the fixed marker/keyword sets need). -/
def lowerL (l : List Char) : List Char := l.map Char.toLower

/-- `listStartsWith pat l` is true iff `pat` is an initial segment of `l`
(used for substring search). -/
def listStartsWith : List Char → List Char → Bool
  | [], _ => true
  | _ :: _, [] => false
  | a :: as, b :: bs => a == b && listStartsWith as bs

/-- Python `pat in hay` substring test on character lists. -/
def containsSub (hay pat : List Char) : Bool :=
  match hay with
  | [] => pat.isEmpty
  | _ :: t => listStartsWith pat hay || containsSub t pat

/-- Fuel-driven scanner for `countOccurrences` (structural recursion on
the fuel so that the kernel can evaluate it; the fuel is instantiated
with the haystack length, which bounds the number of steps). -/
def countOccAux (p : List Char) : Nat → List Char → Nat
  | 0, _ => 0
  | _, [] => 0
  | fuel + 1, c :: rest =>
    if listStartsWith p (c :: rest) then
      1 + countOccAux p fuel (rest.drop (p.length - 1))
    else
      countOccAux p fuel rest

/-- Number of non-overlapping occurrences of a pattern in a character
list, scanning left to right (Python `str.count`). An empty pattern is
counted as 0 occurrences. -/
def countOccurrences (p hay : List Char) : Nat :=
  if p.isEmpty then 0 else countOccAux p hay.length hay

/-- Python `str.strip()`: drop leading and trailing whitespace. -/
def pyStrip (l : List Char) : List Char :=
  ((l.dropWhile Char.isWhitespace).reverse.dropWhile Char.isWhitespace).reverse

/-- Helper for `pySplitWs`: `acc` is the current (reversed) word. -/
def pySplitWsAux : List Char → List Char → List (List Char)
  | [], acc => if acc.isEmpty then [] else [acc.reverse]
  | c :: t, acc =>
    if c.isWhitespace then
      if acc.isEmpty then pySplitWsAux t [] else acc.reverse :: pySplitWsAux t []
    else pySplitWsAux t (c :: acc)

/-- Python `str.split()` (no argument): maximal runs of non-whitespace
characters; empty pieces are dropped. -/
def pySplitWs (l : List Char) : List (List Char) := pySplitWsAux l []

/-- Split a character list on a separator character, keeping empty
segments (Python `str.split(sep)` for a one-character separator). -/
def splitOnChar (sep : Char) : List Char → List (List Char)
  | [] => [[]]
  | c :: t =>
    if c == sep then [] :: splitOnChar sep t
    else
      match splitOnChar sep t with
      | [] => [[c]]
      | s :: ss => (c :: s) :: ss

/-- Python half-to-even rounding of a rational to an integer. -/
def roundHalfEven (q : ℚ) : ℤ :=
  let f := ⌊q⌋
  let r := q - f
  if r < 1 / 2 then f
  else if 1 / 2 < r then f + 1
  else if f % 2 = 0 then f else f + 1

/-- Python `round(x, 1)` on rationals. -/
def roundQ1 (q : ℚ) : ℚ := (roundHalfEven (q * 10) : ℚ) / 10

/-! ## Answer Evaluator, Phase 1
(`AIService.evaluate_answer_instant`, `ai_service.py` lines 467-592).

The external sentence-embedding model enters the function only through
`cosine_similarity(embed(ideal_answer), embed(candidate_answer))`, so the
embedding takes that cosine as the parameter `cos`; `question`,
`ideal_answer` and `round_type` do not otherwise influence the result in
the source and are omitted. -/

/-- The evaluation record produced by the answer evaluator (the keys of
the Python result dict). -/
structure Evaluation where
  content_score : ℚ
  keyword_score : ℚ
  depth_score : ℚ
  communication_score : ℚ
  confidence_score : ℚ
  overall_score : ℚ
  similarity_score : ℚ
  keyword_coverage : ℚ
  keywords_matched : List String
  keywords_missed : List String
  feedback : String
  answer_strength : String
  phase : String
deriving DecidableEq, Repr

/-- The all-zero evaluation returned for a whitespace-only answer
(`ai_service.py` lines 478-487). -/
def zero_evaluation (keywords : List String) : Evaluation :=
  { content_score := 0, keyword_score := 0, depth_score := 0
    communication_score := 0, confidence_score := 0, overall_score := 0
    similarity_score := 0, keyword_coverage := 0
    keywords_matched := [], keywords_missed := keywords
    feedback := "No answer provided."
    answer_strength := "weak", phase := "instant" }

/-- The fixed set of structural transition markers
(`ai_service.py` lines 521-523). -/
def structure_markers : List String :=
  ["firstly", "secondly", "however", "moreover", "for example",
   "in addition", "furthermore", "therefore", "in conclusion",
   "on the other hand", "specifically", "for instance"]

/-- `len(candidate_answer.split())`. -/
def word_count (ans : List Char) : Nat := (pySplitWs ans).length

/-- `len([s.strip() for s in candidate_answer.split(".") if s.strip()])`. -/
def sentence_count (ans : List Char) : Nat :=
  (((splitOnChar '.' ans).map pyStrip).filter (fun s => !s.isEmpty)).length

/-- Word-count bucket for the base communication score
(`ai_service.py` lines 503-514). -/
def comm_base (wc : Nat) : ℚ :=
  if wc < 10 then 15
  else if wc < 20 then 35
  else if wc < 50 then 55
  else if wc < 100 then 70
  else if wc < 200 then 82
  else 88

/-- `sum(1 for m in structure_markers if m in candidate_answer.lower())`:
each marker contributes at most once, however often it occurs
(`ai_service.py` line 524). -/
def marker_count (ansLower : List Char) : Nat :=
  (structure_markers.filter (fun m => containsSub ansLower m.toList)).length

/-- The communication heuristic of the instant evaluator
(`ai_service.py` lines 500-525). -/
def comm_score (ans : List Char) : ℚ :=
  let wc := word_count ans
  let sc := sentence_count ans
  let base := comm_base wc
  let b1 := if sc ≥ 3 then min 100 (base + 8) else base
  let b2 := if sc ≥ 5 then min 100 (b1 + 5) else b1
  min 100 (b2 + (marker_count (lowerL ans) : ℚ) * 3)

/-- Phase 1 instant evaluation (`AIService.evaluate_answer_instant`).
`cos` is the cosine similarity of the two sentence embeddings. -/
def evaluate_answer_instant (cos : ℚ) (candidate_answer : String)
    (keywords : List String) : Evaluation :=
  let ans := candidate_answer.toList
  if (pyStrip ans).isEmpty then zero_evaluation keywords
  else
    let sim_score := cos * 100
    let answer_lower := lowerL ans
    let matched := keywords.filter (fun k => containsSub answer_lower (lowerL k.toList))
    let missed := keywords.filter (fun k => !containsSub answer_lower (lowerL k.toList))
    let keyword_pct := ((matched.length : ℚ) / (max keywords.length 1 : ℕ)) * 100
    let wc := word_count ans
    let sc := sentence_count ans
    let comm := comm_score ans
    let depth_score := min 100 (sim_score * 0.5 + keyword_pct * 0.3 + (min wc 100 : ℕ) * 0.2)
    let content_score := sim_score * 0.6 + keyword_pct * 0.4
    let confidence_score : ℚ := 50
    let overall := content_score * 0.40 + keyword_pct * 0.20 + depth_score * 0.15
      + comm * 0.15 + confidence_score * 0.10
    let answer_strength :=
      if overall ≥ 80 then "strong" else if overall ≥ 50 then "moderate" else "weak"
    let part1 :=
      if sim_score ≥ 70 then ["Your answer aligns well with the expected response."]
      else if sim_score ≥ 40 then ["Your answer partially covers the expected content."]
      else ["Your answer doesn\x27t closely match what was expected."]
    let part2 :=
      if keyword_pct ≥ 70 then ["Good use of relevant technical terminology."]
      else if !missed.isEmpty then
        ["Consider mentioning: " ++ String.intercalate ", " (missed.take 3) ++ "."]
      else []
    let part3 :=
      if wc < 30 then ["Try to elaborate more — provide specific examples and details."]
      else if sc < 3 then ["Structure your answer into multiple points for clarity."]
      else []
    let part4 :=
      if overall ≥ 75 then ["Strong response overall!"]
      else if overall < 40 then ["Review the core concepts and practice with concrete examples."]
      else []
    { content_score := roundQ1 content_score
      keyword_score := roundQ1 keyword_pct
      depth_score := roundQ1 depth_score
      communication_score := roundQ1 comm
      confidence_score := roundQ1 confidence_score
      overall_score := roundQ1 overall
      similarity_score := roundQ1 sim_score
      keyword_coverage := roundQ1 keyword_pct
      keywords_matched := matched
      keywords_missed := missed
      feedback := String.intercalate " " (part1 ++ part2 ++ part3 ++ part4)
      answer_strength := answer_strength
      phase := "instant" }

/-! ### Reference definitions taken from the specification's words
(spec §4.4 Phase 1, the sentences quoted by the claim). -/

/-- Spec: `similarity_score = 100·cos(embed(ideal), embed(candidate))`. -/
def spec_similarity_score (cos : ℚ) : ℚ := 100 * cos

/-- Spec: `keyword_score = 100·|matched|/max(1,|keywords|)` with
case-insensitive substring matching. -/
def spec_keyword_score (candidate_answer : String) (keywords : List String) : ℚ :=
  let ansLower := lowerL candidate_answer.toList
  let matched := keywords.filter (fun k => containsSub ansLower (lowerL k.toList))
  100 * (matched.length : ℚ) / (max 1 keywords.length : ℕ)

/-- Spec: `content_score = 0.6·similarity + 0.4·keyword_score`. -/
def spec_content_score (cos : ℚ) (candidate_answer : String)
    (keywords : List String) : ℚ :=
  0.6 * spec_similarity_score cos + 0.4 * spec_keyword_score candidate_answer keywords

/-- Spec: `depth_score = min(100, 0.5·similarity + 0.3·keyword_score +
0.2·min(word_count, 100))`. -/
def spec_depth_score (cos : ℚ) (candidate_answer : String)
    (keywords : List String) : ℚ :=
  min 100 (0.5 * spec_similarity_score cos
    + 0.3 * spec_keyword_score candidate_answer keywords
    + 0.2 * (min (word_count candidate_answer.toList) 100 : ℕ))

/-- Total number of occurrences of structural markers in the lowercased
answer: the claim's literal reading of "+3 per occurrence of any
structural marker". -/
def spec_marker_occurrences (candidate_answer : String) : Nat :=
  (structure_markers.map
    (fun m => countOccurrences m.toList (lowerL candidate_answer.toList))).sum

/-- The claim's communication heuristic read literally: word-count bucket,
+8 for ≥3 sentences, +5 more for ≥5 sentences, +3 per *occurrence* of a
structural marker, capped at 100. -/
def spec_communication_score_per_occurrence (candidate_answer : String) : ℚ :=
  let ans := candidate_answer.toList
  let base := comm_base (word_count ans)
  let b1 := if sentence_count ans ≥ 3 then base + 8 else base
  let b2 := if sentence_count ans ≥ 5 then b1 + 5 else b1
  min 100 (b2 + (spec_marker_occurrences candidate_answer : ℚ) * 3)

/-- The amended communication heuristic: identical except that each
structural marker counts at most once however often it occurs in the
answer (which is what the source computes). -/
def spec_communication_score (candidate_answer : String) : ℚ :=
  let ans := candidate_answer.toList
  let base := comm_base (word_count ans)
  let b1 := if sentence_count ans ≥ 3 then base + 8 else base
  let b2 := if sentence_count ans ≥ 5 then b1 + 5 else b1
  min 100 (b2 + ((structure_markers.filter
    (fun m => containsSub (lowerL ans) m.toList)).length : ℚ) * 3)

/-- Spec: `overall = 0.40·content + 0.20·keyword + 0.15·depth +
0.15·communication + 0.10·confidence` (before the storage rounding
to 0.1). -/
def spec_overall_score (content keyword depth communication confidence : ℚ) : ℚ :=
  0.40 * content + 0.20 * keyword + 0.15 * depth
    + 0.15 * communication + 0.10 * confidence

/-- Spec: strength `strong` if overall ≥ 80, `moderate` if ≥ 50,
else `weak`. -/
def spec_strength (overall : ℚ) : String :=
  if overall ≥ 80 then "strong" else if overall ≥ 50 then "moderate" else "weak"

/-! ## Answer Evaluator, Phase 2
(`AIService.evaluate_answer_deep` lines 594-644, `evaluate_answer`
lines 646-674, `_get_ai_feedback` lines 698-721).

The two LLM calls issued by the deep phase are modelled by their joint
outcome: `DeepRun.exn` is an exception escaping the `gather` (caught by
the `except` of `evaluate_answer_deep`), `DeepRun.ok depth llm` is both
tasks returning, `depth` being the value produced by `_evaluate_depth`
and `llm` the raw text outcome of the feedback LLM call (`none` when
that call raised inside `_get_ai_feedback`, which catches it). The 15 s
`asyncio.wait_for` around the whole deep phase is modelled by the
`DeepResult.timedOut` outcome. -/

/-- The canned feedback strings `_get_ai_feedback` falls back to. -/
def canned_feedback (score : ℚ) : String :=
  if score ≥ 70 then
    "Good answer with relevant details. Consider adding more specific examples to strengthen your response."
  else if score ≥ 40 then
    "Decent answer but could be more detailed. Include specific examples and demonstrate deeper knowledge."
  else
    "Answer needs improvement. Focus on addressing the question directly with relevant examples and key concepts."

/-- `AIService._get_ai_feedback`: the stripped LLM text when the call
succeeds and is nonblank, otherwise a canned string keyed on the score. -/
def get_ai_feedback (llm : Option String) (score : ℚ) : String :=
  match llm with
  | some t =>
    if (pyStrip t.toList).isEmpty then canned_feedback score
    else String.mk (pyStrip t.toList)
  | none => canned_feedback score

/-- Joint outcome of the two parallel LLM tasks inside
`evaluate_answer_deep`. -/
inductive DeepRun where
  | exn
  | ok (depth : ℚ) (llm_feedback : Option String)

/-- `AIService.evaluate_answer_deep` on a given Phase-1 result. -/
def evaluate_answer_deep (instant : Evaluation) : DeepRun → Evaluation
  | .exn => { instant with phase := "deep_failed" }
  | .ok depth llm =>
    let feedback := get_ai_feedback llm instant.overall_score
    let overall := instant.content_score * 0.40 + instant.keyword_score * 0.20
      + depth * 0.15 + instant.communication_score * 0.15
      + instant.confidence_score * 0.10
    { instant with
      depth_score := roundQ1 depth
      overall_score := roundQ1 overall
      feedback := if feedback ≠ "" then feedback else instant.feedback
      answer_strength :=
        if overall ≥ 80 then "strong" else if overall ≥ 50 then "moderate" else "weak"
      phase := "deep" }

/-- Outcome of `asyncio.wait_for(evaluate_answer_deep(...), timeout=15.0)`. -/
inductive DeepResult where
  | timedOut
  | completed (r : DeepRun)

/-- `AIService.evaluate_answer`: Phase 1 followed by the 15 s-bounded deep
phase; on timeout the instant result is returned unchanged. -/
def evaluate_answer (instant : Evaluation) : DeepResult → Evaluation
  | .timedOut => instant
  | .completed r => evaluate_answer_deep instant r

/-! ## Code-answer branch
(`candidate_interview.py` lines 322-354, `mock_interview.py`
lines 155-179: the dict mapping an LLM code evaluation into the standard
evaluation shape). -/

/-- The fields of the LLM code-evaluation JSON. -/
structure CodeEval where
  correctness_score : ℚ
  quality_score : ℚ
  efficiency_score : ℚ
  edge_case_score : ℚ
  overall_score : ℚ
  feedback : String

/-- The evaluation dict built from a code evaluation (identical in both
routers). The source dict carries no `phase` key, modelled as the empty
string. -/
def map_code_evaluation (ce : CodeEval) : Evaluation :=
  { content_score := ce.correctness_score
    keyword_score := ce.quality_score
    depth_score := ce.efficiency_score
    communication_score := ce.quality_score
    confidence_score := 50
    overall_score := ce.overall_score
    similarity_score := ce.correctness_score
    keyword_coverage := 0
    keywords_matched := []
    keywords_missed := []
    feedback := ce.feedback
    answer_strength :=
      if ce.overall_score ≥ 80 then "strong"
      else if ce.overall_score ≥ 50 then "moderate" else "weak"
    phase := "" }

/-- The methods defined on `class AIService` (`ai_service.py`), in source
order. -/
def ai_service_method_names : List String :=
  ["__init__", "cleanup_session", "warm_up", "shutdown", "embedding_model",
   "_gemini_generate", "_parse_json_from_response", "analyze_job_description",
   "generate_question", "_generate_question_fallback", "pre_generate_question",
   "get_cached_question", "evaluate_answer_instant", "evaluate_answer_deep",
   "evaluate_answer", "_evaluate_depth", "_get_ai_feedback", "evaluate_code",
   "calculate_round_score", "should_proceed_to_hr", "determine_next_difficulty",
   "check_time_status", "generate_report", "_analyze_performance"]

/-- The parameter names of `AIService.generate_question`
(`ai_service.py` lines 188-201). -/
def generate_question_params : List String :=
  ["self", "job_role", "difficulty", "previous_questions", "round_type",
   "job_description", "experience_level", "previous_answers", "last_score",
   "jd_analysis", "is_coding_question", "session_id"]

/-- The keyword arguments of the `ai_service.generate_question(...)` call
in the parallel next-question task of `submit_candidate_answer`
(`candidate_interview.py` lines 384-395; the calls at lines 491-504 and
515-526 pass the same keyword set). -/
def candidate_generate_question_kwargs : List String :=
  ["job_role", "difficulty", "previous_questions", "round_type",
   "job_description", "experience_level", "previous_answers", "last_score",
   "jd_analysis", "coding_count"]

/-- Whether a Python keyword-argument list binds against a parameter list
that has no `**kwargs` catch-all: every keyword must name a declared
parameter, otherwise the call raises
`TypeError: unexpected keyword argument`. -/
def python_keywords_bind (params kwargs : List String) : Bool :=
  kwargs.all (fun k => params.contains k)

/-! ## Model Router
(`ModelRegistry` in `model_registry.py`, lines 37-41, 88-99, 122-199).

The Groq client call is modelled by its outcome per model name: either
the returned text or the raised exception (its string form plus the
`status_code` the transport exposes, if any). Since each model is
attempted at most once per call, a single outcome per model suffices. -/

/-- `ModelRegistry._QUOTA_ERROR_MARKERS`. -/
def quota_error_markers : List String :=
  ["429", "resource_exhausted", "rate limit", "quota",
   "too many requests", "503", "overloaded", "capacity",
   "rate_limit_exceeded", "limit reached"]

/-- A raised exception: its textual form and the status code exposed on
it (or on its `response`), if any. -/
structure PyError where
  text : String
  status_code : Option Nat

/-- `ModelRegistry._is_quota_error`. -/
def is_quota_error (e : PyError) : Bool :=
  quota_error_markers.any (fun m => containsSub (lowerL e.text.toList) m.toList)
    || (e.status_code == some 429 || e.status_code == some 503)

/-- Outcome of one `client.chat.completions.create` attempt. -/
inductive LLMOutcome where
  | ok (text : String)
  | err (e : PyError)

/-- Cooldown-map update (`self._model_cooldowns[model] = ...`). -/
def cooldown_set (cds : String → ℚ) (m : String) (v : ℚ) : String → ℚ :=
  fun x => if x = m then v else cds x

/-- The `models_to_try` list built by `ModelRegistry.gemini_generate`
(lines 142-160): the active model first if off cooldown, then the other
off-cooldown chain members in chain order, then the remaining (cooldown)
members in chain order; the `tried` set is reflected by the membership
filters. -/
def models_to_try (chain : List String) (active : String)
    (cds : String → ℚ) (now : ℚ) : List String :=
  let first := if cds active ≤ now then [active] else []
  let offRest := chain.filter (fun m => !first.contains m && decide (cds m ≤ now))
  let onRest := chain.filter (fun m => !first.contains m && !offRest.contains m)
  first ++ offRest ++ onRest

/-- The retry loop of `gemini_generate` (lines 167-199): success returns
the text; a quota error puts the model on a 60 s cooldown and moves on; a
non-quota error aborts with the empty string; an exhausted list yields
the empty string. Returns the text together with the final cooldown
map. -/
def gemini_generate_run (outcome : String → LLMOutcome) (now : ℚ) :
    List String → (String → ℚ) → String × (String → ℚ)
  | [], cds => ("", cds)
  | m :: rest, cds =>
    match outcome m with
    | .ok t => (t, cds)
    | .err e =>
      if is_quota_error e then
        gemini_generate_run outcome now rest (cooldown_set cds m (now + 60))
      else ("", cds)

/-- `ModelRegistry.gemini_generate` (client configured; a missing client
returns the empty string before the loop). -/
def gemini_generate (chain : List String) (active_idx : Nat)
    (cds : String → ℚ) (now : ℚ) (outcome : String → LLMOutcome) :
    String × (String → ℚ) :=
  gemini_generate_run outcome now
    (models_to_try chain (chain.getD active_idx "") cds now) cds

/-- The attempt order as the specification words it: the active model if
off cooldown, then the remaining off-cooldown chain members in chain
order, then the on-cooldown members in chain order. -/
def spec_attempt_order (chain : List String) (active : String)
    (offCooldown : String → Bool) : List String :=
  (if offCooldown active then [active] else [])
    ++ chain.filter (fun m => offCooldown m && m != active)
    ++ chain.filter (fun m => !offCooldown m)

/-! ## Active-time timer
(`AIService.check_time_status`, `ai_service.py` lines 806-831).

`now` and `start_time` enter only through their difference, so the model
takes `wall_elapsed` (minutes) as a parameter. -/

/-- The time-status dict. -/
structure TimeStatus where
  elapsed_minutes : ℚ
  remaining_minutes : ℚ
  remaining_seconds : ℤ
  is_expired : Bool
  is_wrap_up : Bool
  progress_pct : ℚ
  wall_elapsed_minutes : ℚ
deriving DecidableEq, Repr

/-- `AIService.check_time_status`. -/
def check_time_status (wall_elapsed : ℚ) (duration_minutes : ℤ)
    (processing_time_seconds : ℚ) : TimeStatus :=
  let active_elapsed := max 0 (wall_elapsed - processing_time_seconds / 60)
  let remaining := max 0 ((duration_minutes : ℚ) - active_elapsed)
  { elapsed_minutes := roundQ1 active_elapsed
    remaining_minutes := roundQ1 remaining
    remaining_seconds := ⌊remaining * 60⌋
    is_expired := decide (remaining ≤ 0)
    is_wrap_up := decide (0 < remaining ∧ remaining < 2)
    progress_pct :=
      min 100 (roundQ1 (active_elapsed / (max duration_minutes 1 : ℤ) * 100))
    wall_elapsed_minutes := roundQ1 wall_elapsed }

/-! ## Session Controller
(`mock_interview.py` `submit_answer` lines 119-380;
`candidate_interview.py` `submit_candidate_answer` lines 273-566 contains
the identical round-transition logic at lines 441-504).

The evaluation of the submitted answer and the generated next question
are abstracted to the data the controller reads from them: the overall
score of the evaluation and the identity of the appended question. Time
enters through the wall-clock elapsed minutes and the updated
`processing_time_total` at the post-answer `check_time_status` call. -/

inductive Round where
  | Technical
  | HR
deriving DecidableEq, Repr

inductive SessionStatus where
  | in_progress
  | completed
deriving DecidableEq, Repr

/-- A stored question document (the fields the controller reads back). -/
structure QuestionDoc where
  question_id : ℕ
  round : Round
  is_coding : Bool
deriving DecidableEq, Repr

/-- A stored response document (the field the controller reads back). -/
structure ResponseDoc where
  question_id : ℕ
  overall_score : ℚ
deriving DecidableEq, Repr

/-- The session document fields touched by `submit_answer`. -/
structure Session where
  status : SessionStatus
  currentRound : Round
  questions : List QuestionDoc
  responses : List ResponseDoc
  technical_score : Option ℚ
  hr_score : Option ℚ
  termination_reason : Option String
  duration_minutes : ℤ
deriving DecidableEq, Repr

/-- `AIService.calculate_round_score`: mean overall score rounded to 0.1,
0.0 on the empty list. -/
def calculate_round_score (responses : List ResponseDoc) : ℚ :=
  if responses.isEmpty then 0
  else roundQ1 ((responses.map (fun r => r.overall_score)).sum / responses.length)

/-- `AIService.should_proceed_to_hr`. -/
def should_proceed_to_hr (technical_score cutoff : ℚ) : Bool :=
  technical_score ≥ cutoff

/-- `TECH_CUTOFF = 70.0` (both routers). -/
def TECH_CUTOFF : ℚ := 70

/-- `AIService.determine_next_difficulty` (the difficulty ladder). -/
def determine_next_difficulty (last_score : ℚ) : String :=
  if last_score ≥ 80 then "hard" else if last_score ≥ 50 then "medium" else "easy"

/-- The responses whose question is a Technical question (the
`tech_responses` comprehension of both routers). -/
def tech_responses (questions : List QuestionDoc) (responses : List ResponseDoc) :
    List ResponseDoc :=
  responses.filter (fun r =>
    questions.any (fun q => q.question_id == r.question_id && q.round == Round.Technical))

/-- The responses whose question is an HR question. -/
def hr_responses (questions : List QuestionDoc) (responses : List ResponseDoc) :
    List ResponseDoc :=
  responses.filter (fun r =>
    questions.any (fun q => q.question_id == r.question_id && q.round == Round.HR))

/-- The per-request inputs of one `submit_answer` call. -/
structure SubmitInput where
  question_id : ℕ
  eval_overall : ℚ
  wall_elapsed : ℚ
  proc_total : ℚ
  next_question_id : ℕ
  next_is_coding : Bool
deriving DecidableEq, Repr

/-- Appending the next question: its `round` field is the current round
*after* any transition (`mock_interview.py` lines 349-364). -/
def append_next_question (s : Session) (i : SubmitInput) : Session :=
  { s with questions := s.questions ++
      [{ question_id := i.next_question_id, round := s.currentRound,
         is_coding := i.next_is_coding }] }

/-- One `submit_answer` call on the session document
(`mock_interview.py` lines 141-364): question lookup, response append,
time re-check, expiry termination, the Technical→HR transition gate, and
the next-question append. An unknown `question_id` leaves the document
untouched (HTTP 404). -/
def submit_answer_step (s : Session) (i : SubmitInput) : Session :=
  match s.questions.find? (fun q => q.question_id == i.question_id) with
  | none => s
  | some _ =>
    let s1 := { s with responses := s.responses ++ [⟨i.question_id, i.eval_overall⟩] }
    let ts := check_time_status i.wall_elapsed s.duration_minutes i.proc_total
    if ts.is_expired then
      -- `_complete_session` computes the round scores from the session
      -- dict read before the `$push`, i.e. without the new response
      { s1 with
        status := .completed,
        technical_score := some (calculate_round_score (tech_responses s.questions s.responses)),
        hr_score := some (calculate_round_score (hr_responses s.questions s.responses)) }
    else if s.currentRound = .Technical then
      let trs := tech_responses s.questions s1.responses
      let tech_score := calculate_round_score trs
      if ts.elapsed_minutes ≥ (s.duration_minutes : ℚ) * 0.6 ∧ 3 ≤ trs.length then
        if !should_proceed_to_hr tech_score TECH_CUTOFF then
          { s1 with
            technical_score := some tech_score,
            status := .completed,
            termination_reason := some "technical_score_below_cutoff" }
        else
          append_next_question
            { s1 with currentRound := .HR, technical_score := some tech_score } i
      else append_next_question s1 i
    else append_next_question s1 i

/-- A sequence of `submit_answer` calls. -/
def run_steps (s : Session) : List SubmitInput → Session
  | [] => s
  | i :: l => run_steps (submit_answer_step s i) l

/-- Number of round changes along a sequence of `submit_answer` calls. -/
def count_round_flips (s : Session) : List SubmitInput → ℕ
  | [] => 0
  | i :: l =>
    (if (submit_answer_step s i).currentRound ≠ s.currentRound then 1 else 0)
      + count_round_flips (submit_answer_step s i) l

/-- `candidate_interview.submit_candidate_answer` at the document level:
the completed-status guard (lines 283-284) and the question lookup
(lines 310-312) run before any write; past them, the coding path calls
the nonexistent `AIService.build_code_followup_question` (line 348) and
the non-coding path calls `generate_question` with the undeclared
keyword `coding_count` (line 384), so every continuation raises before
the first database write and no `.ok` state is produced. -/
def submit_candidate_answer_model (s : Session) (i : SubmitInput)
    (has_code : Bool) : Except String Session :=
  if s.status = .completed then .error "Interview already completed"
  else
    match s.questions.find? (fun q => q.question_id == i.question_id) with
    | none => .error "Question not found"
    | some q =>
      if q.is_coding && has_code then
        .error "AttributeError: build_code_followup_question"
      else
        .error "TypeError: unexpected keyword argument coding_count"

/-! ## Proctoring gaze FSM
(`GazeStateMachine`, `multimodal_analysis_service.py` lines 99-239, with
the default construction parameters of lines 99-118: window 5, away and
look thresholds 0.50, deviation hold 2.0 s, full recovery 2.0 s, gaze
threshold 50.0, staleness timeout 5.0 s). `time.time()` is passed in as
`now`. -/

inductive GazeState where
  | ATTENTIVE
  | WARNING_ACTIVE
  | RECOVERING
deriving DecidableEq, Repr

/-- The mutable state of `GazeStateMachine`. -/
structure GazeFSM where
  frame_window : List Bool
  state : GazeState
  deviation_start : Option ℚ
  recovery_start : Option ℚ
  last_frame_time : Option ℚ
deriving DecidableEq, Repr

/-- `deque(maxlen=5)` append. -/
def push_window (w : List Bool) (b : Bool) : List Bool :=
  let w2 := w ++ [b]
  w2.drop (w2.length - 5)

/-- `away_pct` of the rolling window (`away_count / total`, 0 when the
window is empty). -/
def away_pct (w : List Bool) : ℚ :=
  if w.length = 0 then 0 else ((w.filter (fun b => !b)).length : ℚ) / w.length

/-- `looking_pct` of the rolling window (1.0 when the window is empty). -/
def looking_pct (w : List Bool) : ℚ :=
  if w.length = 0 then 1 else ((w.filter (fun b => b)).length : ℚ) / w.length

/-- `GazeStateMachine.update` (lines 133-215). -/
def gaze_update (now : ℚ) (gaze_score : ℚ) (s : GazeFSM) : GazeFSM :=
  let is_looking := gaze_score ≥ (50 : ℚ)
  let w := push_window s.frame_window (decide is_looking)
  let window_says_away := away_pct w ≥ 1 / 2
  match s.state with
  | .ATTENTIVE =>
    if window_says_away then
      let dev := s.deviation_start.getD now
      if now - dev ≥ 2 then
        { frame_window := w, state := .WARNING_ACTIVE, deviation_start := none,
          recovery_start := none, last_frame_time := some now }
      else
        { frame_window := w, state := .ATTENTIVE, deviation_start := some dev,
          recovery_start := none, last_frame_time := some now }
    else
      { frame_window := w, state := .ATTENTIVE, deviation_start := none,
        recovery_start := none, last_frame_time := some now }
  | .WARNING_ACTIVE =>
    if is_looking then
      { frame_window := w, state := .RECOVERING, deviation_start := none,
        recovery_start := some now, last_frame_time := some now }
    else
      { frame_window := w, state := .WARNING_ACTIVE, deviation_start := none,
        recovery_start := none, last_frame_time := some now }
  | .RECOVERING =>
    if is_looking then
      let rst := s.recovery_start.getD now
      if now - rst ≥ 2 then
        { frame_window := w, state := .ATTENTIVE, deviation_start := none,
          recovery_start := none, last_frame_time := some now }
      else
        { frame_window := w, state := .RECOVERING, deviation_start := none,
          recovery_start := some rst, last_frame_time := some now }
    else
      if window_says_away then
        { frame_window := w, state := .WARNING_ACTIVE, deviation_start := none,
          recovery_start := none, last_frame_time := some now }
      else
        -- single away frame during recovery: ignored, timer untouched
        { frame_window := w, state := .RECOVERING, deviation_start := none,
          recovery_start := s.recovery_start, last_frame_time := some now }

/-- `GazeStateMachine.check_staleness` (lines 217-231): after more than
5 s without a frame, inject `gaze_score = 0` through the normal update. -/
def gaze_check_staleness (now : ℚ) (s : GazeFSM) : GazeFSM :=
  match s.last_frame_time with
  | none => s
  | some t => if now - t > 5 then gaze_update now 0 s else s

/-- The freshly constructed (or `reset`) machine. -/
def gaze_init : GazeFSM :=
  { frame_window := [], state := .ATTENTIVE, deviation_start := none,
    recovery_start := none, last_frame_time := none }

/-- States reachable from the initial state by any sequence of `update`
and `check_staleness` calls. -/
inductive GazeReachable : GazeFSM → Prop
  | init : GazeReachable gaze_init
  | update (now score : ℚ) {s : GazeFSM} :
      GazeReachable s → GazeReachable (gaze_update now score s)
  | staleness (now : ℚ) {s : GazeFSM} :
      GazeReachable s → GazeReachable (gaze_check_staleness now s)

/-- The timer discipline claimed for the FSM: the deviation timer may run
only in `ATTENTIVE`, the recovery timer only in `RECOVERING` (hence at
most one timer runs at a time). -/
def timer_invariant (s : GazeFSM) : Prop :=
  (s.deviation_start ≠ none → s.state = .ATTENTIVE)
    ∧ (s.recovery_start ≠ none → s.state = .RECOVERING)

/-- A concrete Technical-round session (three questions offered, two
answered with overall 60) used to evaluate the theorems. -/
def c1_session : Session :=
  { status := .in_progress, currentRound := .Technical,
    questions := [⟨1, .Technical, false⟩, ⟨2, .Technical, false⟩, ⟨3, .Technical, false⟩],
    responses := [⟨1, 60⟩, ⟨2, 60⟩],
    technical_score := none, hr_score := none, termination_reason := none,
    duration_minutes := 30 }

/-- A concrete `submit_answer` input for `c1_session`: the third answer
scores 60 at 19 active minutes of a 30-minute session. -/
def c1_input : SubmitInput := ⟨3, 60, 19, 0, 4, false⟩

/-- A concrete completed session still holding an offered question. -/
def c5_completed_session : Session :=
  { status := .completed, currentRound := .Technical,
    questions := [⟨1, .Technical, false⟩], responses := [],
    technical_score := some 0, hr_score := some 0, termination_reason := none,
    duration_minutes := 30 }

/-- A concrete answer submission against `c5_completed_session`. -/
def c5_input : SubmitInput := ⟨1, 50, 1, 0, 2, false⟩

/-! ## Helper lemmas -/

theorem roundHalfEven_nonneg {q : ℚ} (h : 0 ≤ q) : 0 ≤ roundHalfEven q := by
  simp only [roundHalfEven]
  have hf : (0 : ℤ) ≤ ⌊q⌋ := Int.floor_nonneg.mpr h
  split <;> [exact hf; skip]
  split <;> [omega; skip]
  split <;> omega

theorem roundQ1_nonneg {q : ℚ} (h : 0 ≤ q) : 0 ≤ roundQ1 q := by
  unfold roundQ1
  have h10 : 0 ≤ q * 10 := by positivity
  have := roundHalfEven_nonneg h10
  positivity

theorem get_ai_feedback_ne_empty (llm : Option String) (score : ℚ) :
    get_ai_feedback llm score ≠ "" := by
  have hc : canned_feedback score ≠ "" := by
    unfold canned_feedback
    split
    · intro h; exact absurd (congrArg String.length h) (by decide)
    · split
      · intro h; exact absurd (congrArg String.length h) (by decide)
      · intro h; exact absurd (congrArg String.length h) (by decide)
  unfold get_ai_feedback
  match llm with
  | none => exact hc
  | some t =>
    by_cases he : (pyStrip t.toList).isEmpty
    · simp only [he, if_true]; exact hc
    · simp only [he, if_false, Bool.false_eq_true]
      intro h
      have hdata : pyStrip t.toList = [] := by
        have := congrArg String.data h
        simpa using this
      exact he (by simp only [String.toList] at hdata ⊢; simp [hdata])

theorem comm_base_le (wc : Nat) : comm_base wc ≤ 88 := by
  unfold comm_base
  split_ifs <;> norm_num

theorem min100_add_collapse (x m : ℚ) (hm : 0 ≤ m) :
    min 100 (min 100 x + m) = min 100 (x + m) := by
  rcases le_total x 100 with h | h
  · rw [min_eq_right h]
  · rw [min_eq_left h, min_eq_left (by linarith), min_eq_left (by linarith)]

/-- The stepwise `min(100, ·)` caps of the source communication heuristic
coincide with a single final cap at 100 (the base bucket is at most 88,
so only the last addition can overflow). -/
theorem comm_score_eq_spec (ans : String) :
    comm_score ans.toList = spec_communication_score ans := by
  unfold comm_score spec_communication_score marker_count
  have hbase := comm_base_le (word_count ans.toList)
  have hmk : (0 : ℚ) ≤ ((structure_markers.filter
      (fun m => containsSub (lowerL ans.toList) m.toList)).length : ℚ) * 3 := by
    positivity
  by_cases h3 : sentence_count ans.toList ≥ 3
  · by_cases h5 : sentence_count ans.toList ≥ 5
    · simp only [h3, if_true, h5]
      rw [min_eq_right (show comm_base (word_count ans.toList) + 8 ≤ 100 by linarith)]
      exact min100_add_collapse _ _ hmk
    · simp only [h3, if_true, h5, if_false]
      rw [min_eq_right (show comm_base (word_count ans.toList) + 8 ≤ 100 by linarith)]
  · have h5 : ¬ sentence_count ans.toList ≥ 5 := by omega
    simp only [h3, h5, if_false]

/-! ## C10: the active-time timer is total and clamped -/

/-- C10: for every input, including `duration_minutes = 0` and processing
time exceeding the wall-clock elapsed time, `check_time_status` returns
normally (it is a total function; the progress denominator is
`max(duration_minutes, 1)` so no division by zero occurs): the reported
elapsed and remaining times are non-negative, `progress_pct` is capped at
100, and `is_expired` holds exactly when the clamped remaining time
`max 0 (duration − max 0 (wall − processing/60))` is zero. -/
theorem c10_check_time_status_safe (wall : ℚ) (d : ℤ) (proc : ℚ) :
    0 ≤ (check_time_status wall d proc).elapsed_minutes
    ∧ 0 ≤ (check_time_status wall d proc).remaining_minutes
    ∧ 0 ≤ (check_time_status wall d proc).remaining_seconds
    ∧ (check_time_status wall d proc).progress_pct ≤ 100
    ∧ ((check_time_status wall d proc).is_expired = true ↔
        max 0 ((d : ℚ) - max 0 (wall - proc / 60)) = 0) := by
  unfold check_time_status
  refine ⟨?_, ?_, ?_, ?_, ?_⟩
  · exact roundQ1_nonneg (le_max_left 0 _)
  · exact roundQ1_nonneg (le_max_left 0 _)
  · exact Int.floor_nonneg.mpr (by positivity)
  · exact min_le_left _ _
  · simp only [decide_eq_true_eq]
    constructor
    · intro h; exact le_antisymm h (le_max_left 0 _)
    · intro h; exact le_of_eq h

/-! ## C3: two-phase evaluation outcome semantics -/

/-- C3: the deep phase of the evaluator is bounded by the 15 s
`asyncio.wait_for`; on timeout the final evaluation is the Phase-1
instant result unchanged (so its phase stays `instant`); if the deep
phase runs and both LLM calls return, the overall score is recomputed
with the LLM depth score in place of the Phase-1 heuristic depth, the
feedback is replaced by the (always nonempty) LLM-derived feedback, the
phase becomes `deep`, and all other scores are kept; if the deep phase
is invoked but raises mid-flight, every Phase-1 score is kept and only
the phase becomes `deep_failed`. -/
theorem c3_two_phase_outcomes (instant : Evaluation) (d : ℚ) (llm : Option String) :
    evaluate_answer instant .timedOut = instant
    ∧ evaluate_answer instant (.completed .exn) = { instant with phase := "deep_failed" }
    ∧ (evaluate_answer instant (.completed (.ok d llm))).depth_score = roundQ1 d
    ∧ (evaluate_answer instant (.completed (.ok d llm))).overall_score
        = roundQ1 (instant.content_score * 0.40 + instant.keyword_score * 0.20
            + d * 0.15 + instant.communication_score * 0.15
            + instant.confidence_score * 0.10)
    ∧ (evaluate_answer instant (.completed (.ok d llm))).feedback
        = get_ai_feedback llm instant.overall_score
    ∧ get_ai_feedback llm instant.overall_score ≠ ""
    ∧ (evaluate_answer instant (.completed (.ok d llm))).phase = "deep"
    ∧ (evaluate_answer instant (.completed (.ok d llm))).content_score
        = instant.content_score
    ∧ (evaluate_answer instant (.completed (.ok d llm))).keyword_score
        = instant.keyword_score
    ∧ (evaluate_answer instant (.completed (.ok d llm))).communication_score
        = instant.communication_score
    ∧ (evaluate_answer instant (.completed (.ok d llm))).confidence_score
        = instant.confidence_score
    ∧ (evaluate_answer instant (.completed (.ok d llm))).similarity_score
        = instant.similarity_score := by
  have hfb := get_ai_feedback_ne_empty llm instant.overall_score
  refine ⟨rfl, rfl, rfl, rfl, ?_, hfb, rfl, rfl, rfl, rfl, rfl, rfl⟩
  simp only [evaluate_answer, evaluate_answer_deep, if_pos hfb]

/-! ## C2: Phase-1 instant evaluation against the spec's reference
definition -/

/-- C2 (amended): Phase-1 instant evaluation matches the spec's reference
definition field by field — a whitespace-only answer yields the all-zero
evaluation with strength `weak` and feedback `No answer provided.`;
otherwise similarity, keyword, content, depth, communication (with each
structural marker counted at most once, the amendment), confidence 50,
the weighted overall score and the strength thresholds are as the spec
states them, each stored after the source's rounding to 0.1. -/
theorem c2_phase1_matches_amended_spec (cos : ℚ) (ans : String) (kws : List String) :
    ((pyStrip ans.toList).isEmpty = true →
        evaluate_answer_instant cos ans kws = zero_evaluation kws)
    ∧ ((pyStrip ans.toList).isEmpty = false →
        (evaluate_answer_instant cos ans kws).similarity_score
            = roundQ1 (spec_similarity_score cos)
        ∧ (evaluate_answer_instant cos ans kws).keyword_score
            = roundQ1 (spec_keyword_score ans kws)
        ∧ (evaluate_answer_instant cos ans kws).content_score
            = roundQ1 (spec_content_score cos ans kws)
        ∧ (evaluate_answer_instant cos ans kws).depth_score
            = roundQ1 (spec_depth_score cos ans kws)
        ∧ (evaluate_answer_instant cos ans kws).communication_score
            = roundQ1 (spec_communication_score ans)
        ∧ (evaluate_answer_instant cos ans kws).confidence_score = 50
        ∧ (evaluate_answer_instant cos ans kws).overall_score
            = roundQ1 (spec_overall_score (spec_content_score cos ans kws)
                (spec_keyword_score ans kws) (spec_depth_score cos ans kws)
                (spec_communication_score ans) 50)
        ∧ (evaluate_answer_instant cos ans kws).answer_strength
            = spec_strength (spec_overall_score (spec_content_score cos ans kws)
                (spec_keyword_score ans kws) (spec_depth_score cos ans kws)
                (spec_communication_score ans) 50)) := by
  constructor
  · intro h
    simp only [evaluate_answer_instant, h, if_true]
  · intro h
    simp only [evaluate_answer_instant, h, Bool.false_eq_true, if_false]
    have hsim : cos * 100 = spec_similarity_score cos := by
      unfold spec_similarity_score; ring
    have hkweq :
        (((kws.filter (fun k => containsSub (lowerL ans.toList) (lowerL k.toList))).length : ℚ)
            / (max kws.length 1 : ℕ)) * 100 = spec_keyword_score ans kws := by
      unfold spec_keyword_score
      rw [Nat.max_comm]
      ring
    refine ⟨?_, ?_, ?_, ?_, ?_, ?_, ?_, ?_⟩
    · show roundQ1 (cos * 100) = _
      rw [hsim]
    · show roundQ1 _ = _
      rw [hkweq]
    · show roundQ1 _ = _
      unfold spec_content_score
      rw [← hsim, ← hkweq]
      congr 1
      ring
    · show roundQ1 _ = _
      unfold spec_depth_score
      rw [← hsim, ← hkweq]
      congr 2
      ring
    · show roundQ1 (comm_score ans.toList) = _
      rw [comm_score_eq_spec]
    · show roundQ1 (50 : ℚ) = 50
      unfold roundQ1 roundHalfEven
      norm_num
    · show roundQ1 _ = _
      unfold spec_overall_score spec_content_score spec_depth_score
      rw [← hsim, ← hkweq, ← comm_score_eq_spec]
      congr 1
      ring_nf
    · show (if _ ≥ (80 : ℚ) then "strong" else _) = _
      unfold spec_strength
      have harg : (cos * 100 * 0.6 +
          ((kws.filter (fun k => containsSub (lowerL ans.toList) (lowerL k.toList))).length : ℚ)
            / (max kws.length 1 : ℕ) * 100 * 0.4) * 0.40 +
          (((kws.filter (fun k => containsSub (lowerL ans.toList) (lowerL k.toList))).length : ℚ)
            / (max kws.length 1 : ℕ) * 100) * 0.20 +
          min 100 (cos * 100 * 0.5 +
            ((kws.filter (fun k => containsSub (lowerL ans.toList) (lowerL k.toList))).length : ℚ)
            / (max kws.length 1 : ℕ) * 100 * 0.3 +
            (min (word_count ans.toList) 100 : ℕ) * 0.2) * 0.15 +
          comm_score ans.toList * 0.15 + (50 : ℚ) * 0.10
          = spec_overall_score (spec_content_score cos ans kws)
              (spec_keyword_score ans kws) (spec_depth_score cos ans kws)
              (spec_communication_score ans) 50 := by
        unfold spec_overall_score spec_content_score spec_depth_score
        rw [← hsim, ← hkweq, ← comm_score_eq_spec]
        ring_nf
      rw [harg]

set_option maxRecDepth 10000 in
attribute [local semireducible] Rat.mul Rat.add Rat.sub Rat.inv Rat.ofScientific in
/-- C2 counterexample: with the claim's "+3 per *occurrence* of any
structural marker" read literally, an answer containing the marker
`however` twice gets communication 21 from the reference definition but
18 from the source (which counts each marker once), so the evaluation
does not equal the claim's reference definition as stated. -/
theorem c2_per_occurrence_counterexample :
    (evaluate_answer_instant 0 "however however yes this design is sound overall" []).communication_score
      ≠ roundQ1 (spec_communication_score_per_occurrence
          "however however yes this design is sound overall")
    ∧ (evaluate_answer_instant 0 "however however yes this design is sound overall" []).communication_score = 18
    ∧ roundQ1 (spec_communication_score_per_occurrence
          "however however yes this design is sound overall") = 21 := by
  refine ⟨by decide, by decide, by decide⟩

set_option maxRecDepth 10000 in
attribute [local semireducible] Rat.mul Rat.add Rat.sub Rat.inv Rat.ofScientific in
/-- C2 witness: the amended theorem applied to a blank answer and to a
concrete nonempty answer. -/
theorem c2_phase1_witness :
    (pyStrip "   ".toList).isEmpty = true
    ∧ evaluate_answer_instant 0 "   " ["x"] = zero_evaluation ["x"]
    ∧ (pyStrip "firstly explain".toList).isEmpty = false
    ∧ (evaluate_answer_instant 1 "firstly explain" ["explain"]).keyword_score
        = roundQ1 (spec_keyword_score "firstly explain" ["explain"]) := by
  refine ⟨by decide, (c2_phase1_matches_amended_spec 0 "   " ["x"]).1 (by decide),
    by decide, ?_⟩
  exact ((c2_phase1_matches_amended_spec 1 "firstly explain" ["explain"]).2 (by decide)).2.1

/-! ## C6: the candidate flow's next-question call cannot bind -/

/-- C6 (code bug): `submit_candidate_answer` passes the session's
coding-question count as the keyword `coding_count` to
`AIService.generate_question`, but `generate_question` declares no such
parameter (and no `**kwargs`), so the call raises
`TypeError: unexpected keyword argument` instead of yielding a
question. -/
theorem c6_generate_question_call_cannot_bind :
    python_keywords_bind generate_question_params candidate_generate_question_kwargs = false
    ∧ "coding_count" ∈ candidate_generate_question_kwargs
    ∧ "coding_count" ∉ generate_question_params := by decide

/-! ## C7: code-evaluation mapping, missing follow-up builder -/

/-- C7 (code bug): the LLM code evaluation is mapped into the standard
evaluation shape with `communication_score = quality`,
`confidence_score = 50` and `similarity_score = correctness` — this part
matches the source in both routers — but the verbal follow-up the
candidate router then requests is built by calling
`AIService.build_code_followup_question`, a method that does not exist
on `AIService`, so the coding path raises `AttributeError` instead of
returning a follow-up question. -/
theorem c7_code_mapping_and_missing_followup (ce : CodeEval) :
    (map_code_evaluation ce).communication_score = ce.quality_score
    ∧ (map_code_evaluation ce).confidence_score = 50
    ∧ (map_code_evaluation ce).similarity_score = ce.correctness_score
    ∧ (map_code_evaluation ce).content_score = ce.correctness_score
    ∧ "build_code_followup_question" ∉ ai_service_method_names := by
  exact ⟨rfl, rfl, rfl, rfl, by decide⟩

/-! ## C4: model-router fallback chain -/

theorem models_to_try_eq_spec (chain : List String) (active : String)
    (cds : String → ℚ) (now : ℚ) :
    models_to_try chain active cds now
      = spec_attempt_order chain active (fun m => decide (cds m ≤ now)) := by
  unfold models_to_try spec_attempt_order
  by_cases hA : cds active ≤ now
  · simp only [hA, if_true, decide_eq_true_eq, if_pos]
    congr 1
    · congr 1
      apply List.filter_congr
      intro m _
      by_cases hm : m = active
      · subst hm
        simp [List.elem_eq_mem]
      · simp [List.elem_eq_mem, hm, Ne.symm hm]
    · apply List.filter_congr
      intro m hmc
      by_cases hm : m = active
      · subst hm
        simp [List.elem_eq_mem, hA]
      · by_cases hd : cds m ≤ now
        · simp [List.elem_eq_mem, hm, hd, hmc]
        · simp [List.elem_eq_mem, hm, hd, hmc]
  · simp only [hA, decide_eq_true_eq, if_neg, not_false_iff]
    congr 1
    · congr 1
      apply List.filter_congr
      intro m _
      by_cases hm : m = active
      · subst hm
        simp [List.elem_eq_mem, hA]
      · simp [List.elem_eq_mem, hm]
    · apply List.filter_congr
      intro m hmc
      by_cases hd : cds m ≤ now
      · simp [List.elem_eq_mem, hd, hmc]
      · simp [List.elem_eq_mem, hd, hmc]

end Interview
namespace Interview

theorem spec_attempt_order_nodup (chain : List String) (active : String)
    (off : String → Bool) (h : chain.Nodup) :
    (spec_attempt_order chain active off).Nodup := by
  unfold spec_attempt_order
  have hfilters : (chain.filter (fun m => off m && m != active)
      ++ chain.filter (fun m => !off m)).Nodup := by
    refine (h.filter _).append (h.filter _) ?_
    intro a ha hb
    have h1 := (List.mem_filter.1 ha).2
    have h2 := (List.mem_filter.1 hb).2
    simp only [Bool.and_eq_true] at h1
    rw [h1.1] at h2
    simp at h2
  cases hoff : off active
  · simpa [hoff] using hfilters
  · simp only [hoff, if_true, List.singleton_append]
    refine List.Pairwise.cons ?_ hfilters
    intro b hb
    rcases List.mem_append.1 hb with hm | hm
    · have h2 := (List.mem_filter.1 hm).2
      simp only [Bool.and_eq_true, bne_iff_ne] at h2
      exact fun he => h2.2 he.symm
    · have h2 := (List.mem_filter.1 hm).2
      intro he
      rw [← he, hoff] at h2
      exact absurd h2 (by simp)

theorem spec_attempt_order_mem (chain : List String) (active : String)
    (off : String → Bool) (h : active ∈ chain) (m : String) :
    m ∈ spec_attempt_order chain active off ↔ m ∈ chain := by
  unfold spec_attempt_order
  cases hoff : off active <;>
    simp only [hoff, Bool.false_eq_true, if_false, if_true, List.nil_append,
      List.singleton_append, List.mem_append, List.mem_cons, List.mem_filter,
      Bool.and_eq_true, bne_iff_ne, Bool.not_eq_true'] <;>
    constructor <;> intro hm
  · rcases hm with ⟨h1, -⟩ | ⟨h1, -⟩ <;> exact h1
  · by_cases ho : off m
    · refine Or.inl ⟨hm, ho, ?_⟩
      intro hma
      rw [hma, hoff] at ho
      cases ho
    · exact Or.inr ⟨hm, by simpa using ho⟩
  · rcases hm with (h1 | ⟨h1, -⟩) | ⟨h1, -⟩
    · rw [h1]; exact h
    · exact h1
    · exact h1
  · by_cases hma : m = active
    · exact Or.inl (Or.inl hma)
    · by_cases ho : off m
      · exact Or.inl (Or.inr ⟨hm, ho, hma⟩)
      · exact Or.inr ⟨hm, by simpa using ho⟩

theorem gemini_generate_run_untouched (outcome : String → LLMOutcome) (now : ℚ) :
    ∀ (l : List String) (cds : String → ℚ) (x : String), x ∉ l →
      (gemini_generate_run outcome now l cds).2 x = cds x := by
  intro l
  induction l with
  | nil => intro cds x _; rfl
  | cons m rest ih =>
    intro cds x hx
    have hxm : x ≠ m := fun he => hx (he ▸ List.mem_cons_self m rest)
    have hxr : x ∉ rest := fun hr => hx (List.mem_cons_of_mem m hr)
    unfold gemini_generate_run
    cases houtcome : outcome m with
    | ok t => rfl
    | err e =>
      by_cases hq : is_quota_error e
      · simp only [hq, if_true]
        rw [ih _ x hxr]
        simp [cooldown_set, hxm]
      · simp [hq]

theorem gemini_generate_run_all_quota (outcome : String → LLMOutcome) (now : ℚ) :
    ∀ (l : List String) (cds : String → ℚ),
      (∀ m ∈ l, ∃ e, outcome m = .err e ∧ is_quota_error e = true) →
      (gemini_generate_run outcome now l cds).1 = ""
      ∧ ∀ m ∈ l, (gemini_generate_run outcome now l cds).2 m = now + 60 := by
  intro l
  induction l with
  | nil => intro cds _; exact ⟨rfl, by intro m hm; cases hm⟩
  | cons m rest ih =>
    intro cds hq
    obtain ⟨e, he, heq⟩ := hq m (List.mem_cons_self m rest)
    have hrest : ∀ m ∈ rest, ∃ e, outcome m = .err e ∧ is_quota_error e = true :=
      fun m hm => hq m (List.mem_cons_of_mem _ hm)
    have ihr := ih (cooldown_set cds m (now + 60)) hrest
    have hstep : gemini_generate_run outcome now (m :: rest) cds
        = gemini_generate_run outcome now rest (cooldown_set cds m (now + 60)) := by
      conv_lhs => rw [gemini_generate_run]
      rw [he]
      simp [heq]
    refine ⟨by rw [hstep]; exact ihr.1, ?_⟩
    intro m' hm'
    rcases List.mem_cons.1 hm' with h1 | h1
    · subst h1
      by_cases hmr : m' ∈ rest
      · rw [hstep]; exact ihr.2 m' hmr
      · rw [hstep, gemini_generate_run_untouched outcome now rest _ m' hmr]
        simp [cooldown_set]
    · rw [hstep]; exact ihr.2 m' h1

/-- C4: the model router's `generate` is total (the model is a function,
so it never throws); it attempts the active model first when off
cooldown, then the remaining off-cooldown chain members in chain order,
then the on-cooldown members in chain order, each chain member exactly
once; a success returns the model's text; a quota-classified error sets
that model's cooldown to `now + 60` and moves to the next candidate; a
non-quota error aborts the call with the empty string; and when every
chain member fails with a quota error the call returns the empty string
with every member's cooldown set to `now + 60`. -/
theorem c4_model_router
    (chain : List String) (active_idx : Nat) (cds : String → ℚ) (now : ℚ)
    (outcome : String → LLMOutcome)
    (hnd : chain.Nodup) (hidx : active_idx < chain.length) :
    models_to_try chain (chain.getD active_idx "") cds now
        = spec_attempt_order chain (chain.getD active_idx "")
            (fun m => decide (cds m ≤ now))
    ∧ (models_to_try chain (chain.getD active_idx "") cds now).Nodup
    ∧ (∀ m, m ∈ models_to_try chain (chain.getD active_idx "") cds now ↔ m ∈ chain)
    ∧ (cds (chain.getD active_idx "") ≤ now →
        (models_to_try chain (chain.getD active_idx "") cds now).head?
          = some (chain.getD active_idx ""))
    ∧ (∀ (m : String) (rest : List String) (cds2 : String → ℚ) (t : String),
        outcome m = .ok t →
        gemini_generate_run outcome now (m :: rest) cds2 = (t, cds2))
    ∧ (∀ (m : String) (rest : List String) (cds2 : String → ℚ) (e : PyError),
        outcome m = .err e → is_quota_error e = true →
        gemini_generate_run outcome now (m :: rest) cds2
            = gemini_generate_run outcome now rest (cooldown_set cds2 m (now + 60))
        ∧ cooldown_set cds2 m (now + 60) m = now + 60)
    ∧ (∀ (m : String) (rest : List String) (cds2 : String → ℚ) (e : PyError),
        outcome m = .err e → is_quota_error e = false →
        gemini_generate_run outcome now (m :: rest) cds2 = ("", cds2))
    ∧ ((∀ m ∈ chain, ∃ e, outcome m = .err e ∧ is_quota_error e = true) →
        (gemini_generate chain active_idx cds now outcome).1 = ""
        ∧ ∀ m ∈ chain, (gemini_generate chain active_idx cds now outcome).2 m
            = now + 60) := by
  have hactive : chain.getD active_idx "" ∈ chain := by
    rw [List.getD_eq_getElem _ _ hidx]
    exact List.getElem_mem hidx
  have heq := models_to_try_eq_spec chain (chain.getD active_idx "") cds now
  have hmem : ∀ m, m ∈ models_to_try chain (chain.getD active_idx "") cds now ↔ m ∈ chain := by
    intro m
    rw [heq]
    exact spec_attempt_order_mem _ _ _ hactive m
  refine ⟨heq, ?_, hmem, ?_, ?_, ?_, ?_, ?_⟩
  · rw [heq]; exact spec_attempt_order_nodup _ _ _ hnd
  · intro hoff
    have hdec : decide (cds (chain.getD active_idx "") ≤ now) = true := by
      simpa using hoff
    rw [heq]
    unfold spec_attempt_order
    beta_reduce
    rw [if_pos hdec]
    rfl
  · intro m rest cds2 t h
    conv_lhs => rw [gemini_generate_run]
    rw [h]
  · intro m rest cds2 e h hq
    constructor
    · conv_lhs => rw [gemini_generate_run]
      rw [h]
      simp [hq]
    · simp [cooldown_set]
  · intro m rest cds2 e h hq
    conv_lhs => rw [gemini_generate_run]
    rw [h]
    simp [hq]
  · intro hall
    unfold gemini_generate
    have := gemini_generate_run_all_quota outcome now
      (models_to_try chain (chain.getD active_idx "") cds now) cds
      (fun m hm => hall m ((hmem m).1 hm))
    exact ⟨this.1, fun m hm => this.2 m ((hmem m).2 hm)⟩

/-- C4 witness: a concrete two-model chain where both models fail with a
quota error — the call returns the empty string and both cooldowns are
set to `now + 60`. -/
theorem c4_model_router_witness :
    (["modelA", "modelB"] : List String).Nodup
    ∧ (gemini_generate ["modelA", "modelB"] 0 (fun _ => 0) 0
        (fun _ => .err ⟨"Rate limit reached", none⟩)).1 = ""
    ∧ (gemini_generate ["modelA", "modelB"] 0 (fun _ => 0) 0
        (fun _ => .err ⟨"Rate limit reached", none⟩)).2 "modelA" = 0 + 60
    ∧ (gemini_generate ["modelA", "modelB"] 0 (fun _ => 0) 0
        (fun _ => .err ⟨"Rate limit reached", none⟩)).2 "modelB" = 0 + 60 := by
  have h := (c4_model_router ["modelA", "modelB"] 0 (fun _ => 0) 0
      (fun _ => .err ⟨"Rate limit reached", none⟩) (by decide) (by decide)).2.2.2.2.2.2.2
      (fun m hm => ⟨⟨"Rate limit reached", none⟩, rfl, by decide⟩)
  exact ⟨by decide, h.1, h.2 "modelA" (by decide), h.2 "modelB" (by decide)⟩

/-! ## C8 and C9: the proctoring gaze FSM -/

theorem push_window_length_le (w : List Bool) (b : Bool) :
    (push_window w b).length ≤ 5 := by
  unfold push_window
  simp only [List.length_drop, List.length_append, List.length_singleton]
  omega

/-- C8: the gaze FSM behaves as specified: a frame counts as looking iff
`gaze_score ≥ 50` and is pushed into a rolling window of the last 5
frames; from `ATTENTIVE` the machine moves to `WARNING_ACTIVE` exactly
when the new window is at least half away and the deviation timer has
been running for at least 2.0 s; from `WARNING_ACTIVE` the first looking
frame moves it to `RECOVERING` and an away frame keeps the warning; from
`RECOVERING` it returns to `ATTENTIVE` exactly when the frame is looking
and the recovery timer has run for at least 2.0 s, regresses to
`WARNING_ACTIVE` exactly when the frame is away *and* the window is at
least half away, and otherwise ignores a single away frame (keeping the
recovery timer); and when no frame has arrived for more than 5 s,
`check_staleness` injects a `gaze_score` of 0 through the normal
update. -/
theorem c8_gaze_fsm (s : GazeFSM) (now score : ℚ) :
    (gaze_update now score s).frame_window
        = push_window s.frame_window (decide (score ≥ 50))
    ∧ (gaze_update now score s).frame_window.length ≤ 5
    ∧ (s.state = .ATTENTIVE →
        ((gaze_update now score s).state = .WARNING_ACTIVE ↔
          away_pct (push_window s.frame_window (decide (score ≥ 50))) ≥ 1 / 2
          ∧ now - s.deviation_start.getD now ≥ 2))
    ∧ (s.state = .WARNING_ACTIVE →
        (((gaze_update now score s).state = .RECOVERING ↔ score ≥ 50)
        ∧ (score < 50 → (gaze_update now score s).state = .WARNING_ACTIVE)))
    ∧ (s.state = .RECOVERING →
        (((gaze_update now score s).state = .ATTENTIVE ↔
            score ≥ 50 ∧ now - s.recovery_start.getD now ≥ 2)
        ∧ ((gaze_update now score s).state = .WARNING_ACTIVE ↔
            score < 50
            ∧ away_pct (push_window s.frame_window (decide (score ≥ 50))) ≥ 1 / 2)
        ∧ (score < 50 →
            away_pct (push_window s.frame_window (decide (score ≥ 50))) < 1 / 2 →
            (gaze_update now score s).state = .RECOVERING
            ∧ (gaze_update now score s).recovery_start = s.recovery_start)))
    ∧ (∀ t, s.last_frame_time = some t → now - t > 5 →
        gaze_check_staleness now s = gaze_update now 0 s) := by
  refine ⟨?_, ?_, ?_, ?_, ?_, ?_⟩
  · cases hs : s.state <;>
      simp only [gaze_update, hs] <;>
      split_ifs <;> rfl
  · cases hs : s.state <;>
      simp only [gaze_update, hs] <;>
      split_ifs <;> exact push_window_length_le _ _
  · intro hs
    simp only [gaze_update, hs]
    by_cases hw : away_pct (push_window s.frame_window (decide (score ≥ 50))) ≥ 1 / 2
    · rw [if_pos hw]
      by_cases ht : now - s.deviation_start.getD now ≥ 2
      · rw [if_pos ht]
        exact ⟨fun _ => ⟨hw, ht⟩, fun _ => rfl⟩
      · rw [if_neg ht]
        exact ⟨fun h => absurd h (by simp), fun hrt => absurd hrt.2 ht⟩
    · rw [if_neg hw]
      exact ⟨fun h => absurd h (by simp), fun hrt => absurd hrt.1 hw⟩
  · intro hs
    simp only [gaze_update, hs]
    by_cases hl : score ≥ 50
    · rw [if_pos hl]
      exact ⟨⟨fun _ => hl, fun _ => rfl⟩, fun hlt => absurd hl (not_le.2 hlt)⟩
    · rw [if_neg hl]
      exact ⟨⟨fun h => absurd h (by simp), fun hge => absurd hge hl⟩, fun _ => rfl⟩
  · intro hs
    simp only [gaze_update, hs]
    by_cases hl : score ≥ 50
    · rw [if_pos hl]
      by_cases ht : now - s.recovery_start.getD now ≥ 2
      · rw [if_pos ht]
        refine ⟨⟨fun _ => ⟨hl, ht⟩, fun _ => rfl⟩, ?_, ?_⟩
        · exact ⟨fun h => absurd h (by simp), fun hrt => absurd hl (not_le.2 hrt.1)⟩
        · intro hlt
          exact absurd hl (not_le.2 hlt)
      · rw [if_neg ht]
        refine ⟨⟨fun h => absurd h (by simp), fun hrt => absurd hrt.2 ht⟩, ?_, ?_⟩
        · exact ⟨fun h => absurd h (by simp), fun hrt => absurd hl (not_le.2 hrt.1)⟩
        · intro hlt
          exact absurd hl (not_le.2 hlt)
    · rw [if_neg hl]
      by_cases hw : away_pct (push_window s.frame_window (decide (score ≥ 50))) ≥ 1 / 2
      · rw [if_pos hw]
        refine ⟨⟨fun h => absurd h (by simp), fun hrt => absurd hrt.1 hl⟩, ?_, ?_⟩
        · exact ⟨fun _ => ⟨not_le.1 hl, hw⟩, fun _ => rfl⟩
        · intro _ hwlt
          exact absurd hwlt (not_lt.2 hw)
      · rw [if_neg hw]
        refine ⟨⟨fun h => absurd h (by simp), fun hrt => absurd hrt.1 hl⟩, ?_, ?_⟩
        · exact ⟨fun h => absurd h (by simp), fun hrt => absurd hrt.2 hw⟩
        · intro _ _
          exact ⟨rfl, rfl⟩
  · intro t ht h5
    simp only [gaze_check_staleness, ht]
    rw [if_pos h5]


theorem timer_invariant_update (now score : ℚ) (s : GazeFSM) :
    timer_invariant (gaze_update now score s) := by
  cases hs : s.state <;>
    simp only [gaze_update, hs] <;>
    split_ifs <;>
    (refine ⟨?_, ?_⟩ <;> intro h <;> first | rfl | exact absurd rfl h)

/-- C9: in every state reachable from the initial state by any sequence
of `update` and `check_staleness` calls, the deviation timer is running
only while the state is `ATTENTIVE` and the recovery timer only while
the state is `RECOVERING` — so at most one of the two timers runs at any
time, and entering a state clears the other state's timer. -/
theorem c9_timer_invariant (s : GazeFSM) (h : GazeReachable s) :
    timer_invariant s := by
  induction h with
  | init =>
    exact ⟨fun h => absurd rfl h, fun h => absurd rfl h⟩
  | update now score hr ih =>
    exact timer_invariant_update _ _ _
  | staleness now hr ih =>
    rename_i s'
    unfold gaze_check_staleness
    cases hlt : s'.last_frame_time with
    | none => exact ih
    | some t =>
      show timer_invariant (if now - t > 5 then gaze_update now 0 s' else s')
      by_cases h5 : now - t > 5
      · rw [if_pos h5]
        exact timer_invariant_update _ _ _
      · rw [if_neg h5]
        exact ih

/-- C9 witness: the invariant evaluated at a concrete reachable state. -/
theorem c9_timer_invariant_witness :
    timer_invariant (gaze_update 1 80 gaze_init) :=
  c9_timer_invariant _ (GazeReachable.update 1 80 GazeReachable.init)

/-- C8 witness: the theorem applied at concrete states — a looking frame
in `WARNING_ACTIVE` enters `RECOVERING`, and a 6-second-stale machine
runs the update with an injected score of 0. -/
theorem c8_gaze_fsm_witness :
    (⟨[false, false], GazeState.WARNING_ACTIVE, none, none, some 1⟩ : GazeFSM).state
        = GazeState.WARNING_ACTIVE
    ∧ (gaze_update 2 80 ⟨[false, false], GazeState.WARNING_ACTIVE, none, none, some 1⟩).state
        = GazeState.RECOVERING
    ∧ (⟨[true], GazeState.ATTENTIVE, none, none, some 1⟩ : GazeFSM).last_frame_time = some 1
    ∧ gaze_check_staleness 7 ⟨[true], GazeState.ATTENTIVE, none, none, some 1⟩
        = gaze_update 7 0 ⟨[true], GazeState.ATTENTIVE, none, none, some 1⟩ := by
  refine ⟨rfl, ?_, rfl, ?_⟩
  · exact ((c8_gaze_fsm ⟨[false, false], GazeState.WARNING_ACTIVE, none, none, some 1⟩
      2 80).2.2.2.1 rfl).1.mpr (by norm_num)
  · exact (c8_gaze_fsm ⟨[true], GazeState.ATTENTIVE, none, none, some 1⟩ 7 0).2.2.2.2.2
      1 rfl (by norm_num)

/-! ## C1: the Technical to HR round transition -/

theorem append_next_question_round (s : Session) (i : SubmitInput) :
    (append_next_question s i).currentRound = s.currentRound := rfl

theorem round_hr_absorb (s : Session) (i : SubmitInput) (h : s.currentRound = .HR) :
    (submit_answer_step s i).currentRound = .HR := by
  unfold submit_answer_step
  split
  · exact h
  · split_ifs <;> (dsimp only; repeat' split) <;> first | rfl | exact h

theorem round_flip_classify (s : Session) (i : SubmitInput)
    (h : (submit_answer_step s i).currentRound ≠ s.currentRound) :
    s.currentRound = .Technical ∧ (submit_answer_step s i).currentRound = .HR := by
  cases hr : s.currentRound with
  | HR => exact absurd (round_hr_absorb s i hr) (hr ▸ h)
  | Technical =>
    refine ⟨rfl, ?_⟩
    cases hr2 : (submit_answer_step s i).currentRound with
    | HR => rfl
    | Technical => exact absurd (hr2.trans hr.symm) h

theorem count_round_flips_of_hr (s : Session) (h : s.currentRound = .HR) :
    ∀ l : List SubmitInput, count_round_flips s l = 0 := by
  intro l
  induction l generalizing s with
  | nil => rfl
  | cons i l ih =>
    unfold count_round_flips
    rw [round_hr_absorb s i h, h, if_neg (by simp), ih _ (round_hr_absorb s i h)]

theorem count_round_flips_le_one (s : Session) (l : List SubmitInput) :
    count_round_flips s l ≤ 1 := by
  induction l generalizing s with
  | nil => exact Nat.zero_le 1
  | cons i l ih =>
    unfold count_round_flips
    by_cases hch : (submit_answer_step s i).currentRound = s.currentRound
    · rw [if_neg (by simpa using hch)]
      simpa using ih (submit_answer_step s i)
    · rw [if_pos hch]
      have hcl := round_flip_classify s i hch
      rw [count_round_flips_of_hr _ hcl.2 l]

theorem step_eq_not_found (s : Session) (i : SubmitInput)
    (hf : s.questions.find? (fun q => q.question_id == i.question_id) = none) :
    submit_answer_step s i = s := by
  unfold submit_answer_step
  rw [hf]

theorem step_eq_expired (s : Session) (i : SubmitInput) (q : QuestionDoc)
    (hf : s.questions.find? (fun q => q.question_id == i.question_id) = some q)
    (he : (check_time_status i.wall_elapsed s.duration_minutes i.proc_total).is_expired
        = true) :
    submit_answer_step s i =
      { s with
        responses := s.responses ++ [⟨i.question_id, i.eval_overall⟩],
        status := .completed,
        technical_score := some (calculate_round_score (tech_responses s.questions s.responses)),
        hr_score := some (calculate_round_score (hr_responses s.questions s.responses)) } := by
  unfold submit_answer_step
  rw [hf]
  dsimp only
  rw [if_pos he]

theorem step_eq_cutoff (s : Session) (i : SubmitInput) (q : QuestionDoc)
    (hf : s.questions.find? (fun q => q.question_id == i.question_id) = some q)
    (he : (check_time_status i.wall_elapsed s.duration_minutes i.proc_total).is_expired
        = false)
    (hT : s.currentRound = .Technical)
    (hg : (check_time_status i.wall_elapsed s.duration_minutes i.proc_total).elapsed_minutes
          ≥ (s.duration_minutes : ℚ) * 0.6
        ∧ 3 ≤ (tech_responses s.questions
            (s.responses ++ [⟨i.question_id, i.eval_overall⟩])).length)
    (hp : calculate_round_score (tech_responses s.questions
        (s.responses ++ [⟨i.question_id, i.eval_overall⟩])) < TECH_CUTOFF) :
    submit_answer_step s i =
      { s with
        responses := s.responses ++ [⟨i.question_id, i.eval_overall⟩],
        technical_score := some (calculate_round_score (tech_responses s.questions
          (s.responses ++ [⟨i.question_id, i.eval_overall⟩]))),
        status := .completed,
        termination_reason := some "technical_score_below_cutoff" } := by
  have hsp : should_proceed_to_hr (calculate_round_score (tech_responses s.questions
      (s.responses ++ [⟨i.question_id, i.eval_overall⟩]))) TECH_CUTOFF = false := by
    unfold should_proceed_to_hr
    exact decide_eq_false (not_le.2 hp)
  unfold submit_answer_step
  rw [hf]
  dsimp only
  rw [if_neg (by simp [he]), if_pos hT, if_pos hg, if_pos (by rw [hsp]; rfl)]

theorem step_eq_transition (s : Session) (i : SubmitInput) (q : QuestionDoc)
    (hf : s.questions.find? (fun q => q.question_id == i.question_id) = some q)
    (he : (check_time_status i.wall_elapsed s.duration_minutes i.proc_total).is_expired
        = false)
    (hT : s.currentRound = .Technical)
    (hg : (check_time_status i.wall_elapsed s.duration_minutes i.proc_total).elapsed_minutes
          ≥ (s.duration_minutes : ℚ) * 0.6
        ∧ 3 ≤ (tech_responses s.questions
            (s.responses ++ [⟨i.question_id, i.eval_overall⟩])).length)
    (hp : TECH_CUTOFF ≤ calculate_round_score (tech_responses s.questions
        (s.responses ++ [⟨i.question_id, i.eval_overall⟩]))) :
    submit_answer_step s i =
      append_next_question
        { s with
          responses := s.responses ++ [⟨i.question_id, i.eval_overall⟩],
          currentRound := .HR,
          technical_score := some (calculate_round_score (tech_responses s.questions
            (s.responses ++ [⟨i.question_id, i.eval_overall⟩]))) } i := by
  have hsp : should_proceed_to_hr (calculate_round_score (tech_responses s.questions
      (s.responses ++ [⟨i.question_id, i.eval_overall⟩]))) TECH_CUTOFF = true := by
    unfold should_proceed_to_hr
    exact decide_eq_true hp
  unfold submit_answer_step
  rw [hf]
  dsimp only
  rw [if_neg (by simp [he]), if_pos hT, if_pos hg, if_neg (by rw [hsp]; simp)]

theorem step_eq_no_gate (s : Session) (i : SubmitInput) (q : QuestionDoc)
    (hf : s.questions.find? (fun q => q.question_id == i.question_id) = some q)
    (he : (check_time_status i.wall_elapsed s.duration_minutes i.proc_total).is_expired
        = false)
    (hT : s.currentRound = .Technical)
    (hg : ¬((check_time_status i.wall_elapsed s.duration_minutes i.proc_total).elapsed_minutes
          ≥ (s.duration_minutes : ℚ) * 0.6
        ∧ 3 ≤ (tech_responses s.questions
            (s.responses ++ [⟨i.question_id, i.eval_overall⟩])).length)) :
    submit_answer_step s i =
      append_next_question
        { s with responses := s.responses ++ [⟨i.question_id, i.eval_overall⟩] } i := by
  unfold submit_answer_step
  rw [hf]
  dsimp only
  rw [if_neg (by simp [he]), if_pos hT, if_neg hg]

theorem step_eq_hr_round (s : Session) (i : SubmitInput) (q : QuestionDoc)
    (hf : s.questions.find? (fun q => q.question_id == i.question_id) = some q)
    (he : (check_time_status i.wall_elapsed s.duration_minutes i.proc_total).is_expired
        = false)
    (hT : ¬s.currentRound = .Technical) :
    submit_answer_step s i =
      append_next_question
        { s with responses := s.responses ++ [⟨i.question_id, i.eval_overall⟩] } i := by
  unfold submit_answer_step
  rw [hf]
  dsimp only
  rw [if_neg (by simp [he]), if_neg hT]

/-- C1: per `submit_answer` call the round either stays or moves
Technical→HR; the Technical→HR move happens only when the reported
active elapsed time is at least 0.6 of the duration, at least three
Technical questions are answered, and the Technical round average is at
least the 70.0 cutoff, and it stores the technical score; when the time
and count gates hold but the average is below 70.0 the session is
instead completed with `termination_reason = technical_score_below_cutoff`
and the technical score stored, the round staying Technical; `HR` is
absorbing; and along any sequence of calls the round changes at most
once. -/
theorem c1_round_transition (s : Session) (i : SubmitInput) :
    ((submit_answer_step s i).currentRound = s.currentRound
      ∨ (s.currentRound = .Technical ∧ (submit_answer_step s i).currentRound = .HR))
    ∧ (s.currentRound = .Technical → (submit_answer_step s i).currentRound = .HR →
        (check_time_status i.wall_elapsed s.duration_minutes i.proc_total).elapsed_minutes
            ≥ (s.duration_minutes : ℚ) * 0.6
        ∧ 3 ≤ (tech_responses s.questions
            (s.responses ++ [⟨i.question_id, i.eval_overall⟩])).length
        ∧ TECH_CUTOFF ≤ calculate_round_score (tech_responses s.questions
            (s.responses ++ [⟨i.question_id, i.eval_overall⟩]))
        ∧ (submit_answer_step s i).technical_score
            = some (calculate_round_score (tech_responses s.questions
                (s.responses ++ [⟨i.question_id, i.eval_overall⟩]))))
    ∧ (s.currentRound = .Technical →
        (s.questions.find? (fun q => q.question_id == i.question_id)).isSome = true →
        (check_time_status i.wall_elapsed s.duration_minutes i.proc_total).is_expired
            = false →
        (check_time_status i.wall_elapsed s.duration_minutes i.proc_total).elapsed_minutes
            ≥ (s.duration_minutes : ℚ) * 0.6 →
        3 ≤ (tech_responses s.questions
            (s.responses ++ [⟨i.question_id, i.eval_overall⟩])).length →
        calculate_round_score (tech_responses s.questions
            (s.responses ++ [⟨i.question_id, i.eval_overall⟩])) < TECH_CUTOFF →
        (submit_answer_step s i).status = .completed
        ∧ (submit_answer_step s i).termination_reason
            = some "technical_score_below_cutoff"
        ∧ (submit_answer_step s i).technical_score
            = some (calculate_round_score (tech_responses s.questions
                (s.responses ++ [⟨i.question_id, i.eval_overall⟩])))
        ∧ (submit_answer_step s i).currentRound = .Technical)
    ∧ (s.currentRound = .HR → (submit_answer_step s i).currentRound = .HR)
    ∧ (∀ l : List SubmitInput, count_round_flips s l ≤ 1) := by
  refine ⟨?_, ?_, ?_, round_hr_absorb s i, count_round_flips_le_one s⟩
  · by_cases hch : (submit_answer_step s i).currentRound = s.currentRound
    · exact Or.inl hch
    · exact Or.inr (round_flip_classify s i hch)
  · intro hT hHR
    cases hf : s.questions.find? (fun q => q.question_id == i.question_id) with
    | none =>
      rw [step_eq_not_found s i hf, hT] at hHR
      exact absurd hHR (by simp)
    | some q =>
      cases he : (check_time_status i.wall_elapsed s.duration_minutes i.proc_total).is_expired with
      | true =>
        have hr2 : (submit_answer_step s i).currentRound = s.currentRound := by
          rw [step_eq_expired s i q hf he]
        rw [hr2, hT] at hHR
        exact absurd hHR (by simp)
      | false =>
        by_cases hg : (check_time_status i.wall_elapsed s.duration_minutes
              i.proc_total).elapsed_minutes ≥ (s.duration_minutes : ℚ) * 0.6
            ∧ 3 ≤ (tech_responses s.questions
              (s.responses ++ [⟨i.question_id, i.eval_overall⟩])).length
        · by_cases hp : calculate_round_score (tech_responses s.questions
              (s.responses ++ [⟨i.question_id, i.eval_overall⟩])) < TECH_CUTOFF
          · have hr2 : (submit_answer_step s i).currentRound = s.currentRound := by
              rw [step_eq_cutoff s i q hf he hT hg hp]
            rw [hr2, hT] at hHR
            exact absurd hHR (by simp)
          · refine ⟨hg.1, hg.2, not_lt.1 hp, ?_⟩
            rw [step_eq_transition s i q hf he hT hg (not_lt.1 hp)]
            rfl
        · have hr2 : (submit_answer_step s i).currentRound = s.currentRound := by
            rw [step_eq_no_gate s i q hf he hT hg, append_next_question_round]
          rw [hr2, hT] at hHR
          exact absurd hHR (by simp)
  · intro hT hfound hne hel hcnt hlt
    obtain ⟨q, hf⟩ := Option.isSome_iff_exists.1 hfound
    rw [step_eq_cutoff s i q hf hne hT ⟨hel, hcnt⟩ hlt]
    exact ⟨rfl, rfl, rfl, hT⟩

set_option maxRecDepth 10000 in
attribute [local semireducible] Rat.mul Rat.add Rat.sub Rat.inv Rat.ofScientific in
/-- C1 witness: the cutoff branch of the theorem at a concrete session —
three Technical answers averaging 60 at 19 of 30 minutes terminate the
session with the cutoff reason and store the score. -/
theorem c1_round_transition_witness :
    c1_session.currentRound = .Technical
    ∧ (submit_answer_step c1_session c1_input).status = .completed
    ∧ (submit_answer_step c1_session c1_input).termination_reason
        = some "technical_score_below_cutoff"
    ∧ (submit_answer_step c1_session c1_input).technical_score
        = some (calculate_round_score (tech_responses c1_session.questions
            (c1_session.responses
              ++ [⟨c1_input.question_id, c1_input.eval_overall⟩]))) := by
  have h := (c1_round_transition c1_session c1_input).2.2.1 rfl (by decide)
    (by decide) (by decide) (by decide) (by decide)
  exact ⟨rfl, h.1, h.2.1, h.2.2.1⟩

/-! ## C5: completed sessions and further answers -/

set_option maxRecDepth 10000 in
attribute [local semireducible] Rat.mul Rat.add Rat.sub Rat.inv Rat.ofScientific in
/-- C5 counterexample: the mock-interview `submit_answer` performs no
completed-status check, so an answer submitted to a concrete completed
session is processed — the response and a next question are appended and
the stored session changes — refuting the claim that every completed
session refuses further answers with its state unchanged. -/
theorem c5_mock_completed_counterexample :
    c5_completed_session.status = .completed
    ∧ (submit_answer_step c5_completed_session c5_input).responses.length
        = c5_completed_session.responses.length + 1
    ∧ (submit_answer_step c5_completed_session c5_input).questions.length
        = c5_completed_session.questions.length + 1
    ∧ submit_answer_step c5_completed_session c5_input ≠ c5_completed_session := by
  refine ⟨rfl, by decide, by decide, by decide⟩

/-- C5 (amended): in the candidate flow, a session whose status is
`completed` has any further answer submission refused with the error
`Interview already completed` before any evaluation or database write
(the model returns `.error`, producing no new state); the mock flow
performs no such check. -/
theorem c5_candidate_completed_refused (s : Session) (i : SubmitInput) (hc : Bool)
    (h : s.status = .completed) :
    submit_candidate_answer_model s i hc = .error "Interview already completed" := by
  unfold submit_candidate_answer_model
  rw [if_pos h]

/-- C5 witness: the amended theorem at the concrete completed session. -/
theorem c5_candidate_completed_refused_witness :
    c5_completed_session.status = .completed
    ∧ submit_candidate_answer_model c5_completed_session c5_input false
        = .error "Interview already completed" :=
  ⟨rfl, c5_candidate_completed_refused _ _ _ rfl⟩

end Interview
